import Mathlib

/-!
Verification of the magoc workflow-extensions backend
(`magoc_workflow_extensions`): four stateless services
(`WorkflowGenerator`, `FlowSuggester`, `PatternLearner`, `AutoBuilder`)
that format prompts, dispatch one completion call, validate the returned
JSON and reshape it, plus the FastAPI boundary (`api.py`) that maps
`ValueError` to HTTP 400 and any other exception to HTTP 500.

The model output and the translated responses are JSON-like values; we
embed them as the inductive `Json` below, with Python `dict` access
(`d[k]` raising `KeyError`, `d.get(k)`, `d.get(k, default)`), Python
truthiness, and exceptions as an `Except PyError` monad.
-/

/-- A single-quote character as a string (used to reproduce source error
messages such as `AI response is missing required 'patterns' object`). -/
def squote : String := String.singleton (Char.ofNat 39)

/-- JSON values as produced by `json.loads`: Python distinguishes `int`
and `float` numbers; objects keep their (unique-keyed) fields in
insertion order. -/
inductive Json where
  | null
  | bool (b : Bool)
  | int (n : Int)
  | float (q : ℚ)
  | str (s : String)
  | arr (elems : List Json)
  | obj (fields : List (String × Json))

/-- Python exceptions raised by the services, distinguished exactly as
far as the FastAPI handlers distinguish them (`except ValueError` vs
`except Exception`). `upstreamError` stands for exceptions raised by the
OpenAI client call itself (not `ValueError` subclasses). -/
inductive PyError where
  | valueError (msg : String)
  | keyError (key : String)
  | typeError (msg : String)
  | upstreamError (msg : String)
deriving DecidableEq, Repr

/-- First-match association-list lookup: Python dict indexing (keys are
unique after `json.loads`). -/
def lookupField : List (String × Json) → String → Option Json
  | [], _ => none
  | (k, v) :: rest, key => if k = key then some v else lookupField rest key

/-- Python dict assignment `d[k] = v`: replace in place when the key
exists, append at the end otherwise (insertion order semantics). -/
def setKey : List (String × Json) → String → Json → List (String × Json)
  | [], k, v => [(k, v)]
  | (k', v') :: rest, k, v =>
      if k' = k then (k, v) :: rest else (k', v') :: setKey rest k v

/-- Key lookup on a JSON value; `none` when the key is absent.  (All
values indexed this way in the source are dicts; non-dict receivers are
never exercised by the claims.) -/
def Json.getKey : Json → String → Option Json
  | .obj fields, k => lookupField fields k
  | _, _ => none

/-- Python `d.get(k)`: the stored value, or `None` when absent. -/
def dictGet (j : Json) (k : String) : Json := (j.getKey k).getD .null

/-- Python `d.get(k, default)`: the stored value (even if it is `None`),
or the default only when the key is absent. -/
def dictGetD (j : Json) (k : String) (d : Json) : Json := (j.getKey k).getD d

/-- Python `d[k]`: raises `KeyError(k)` when the key is absent. -/
def dictItem (j : Json) (k : String) : Except PyError Json :=
  match j.getKey k with
  | some v => .ok v
  | none => .error (.keyError k)

/-- Python truthiness of a JSON value (`not x` tests in the source):
`None`, `False`, zero, the empty string, the empty list and the empty
dict are falsy. -/
def pyTruthy : Json → Bool
  | .null => false
  | .bool b => b
  | .int n => n != 0
  | .float q => q != 0
  | .str s => s != ""
  | .arr l => !l.isEmpty
  | .obj l => !l.isEmpty

/-- Python `isinstance(x, list)`. -/
def Json.isArr : Json → Bool
  | .arr _ => true
  | _ => false

/-- The element list of a JSON array (only applied under an `isArr`
guard, mirroring the source's `isinstance` checks). -/
def Json.elems : Json → List Json
  | .arr l => l
  | _ => []

/-- Python `str(x)` as used in f-strings on scalar values
(`f"step-{ep['order']}"`).  Only the `int` and `str` cases are exercised
by any claim; Python's float/container `repr` is not reproduced. -/
def pyStr : Json → String
  | .int n => toString n
  | .str s => s
  | .bool b => if b then "True" else "False"
  | .null => "None"
  | .float _ => ""
  | .arr _ => ""
  | .obj _ => ""

/-- Effectful map over a list, first error wins: the semantics of the
source's list comprehensions whose bodies may raise. -/
def mapME (f : α → Except PyError β) : List α → Except PyError (List β)
  | [] => .ok []
  | a :: l => do
      let b ← f a
      let bs ← mapME f l
      pure (b :: bs)

/-- Elements of `', '.join(xs)`: every element must be a string, else
Python raises `TypeError`.  (A truthy non-list `dependsOn` is never
exercised by any claim.) -/
def strElems : Json → Except PyError (List String)
  | .arr l => mapME (fun j => match j with
      | .str s => Except.ok s
      | _ => .error (.typeError "sequence item: expected str instance")) l
  | _ => .error (.typeError "can only join an iterable")

/-- The process environment as each service constructor sees it:
`os.environ.get("OPENAI_API_KEY")` yields `None` or a string. -/
structure Env where
  OPENAI_API_KEY : Option String

/-- Source message of the missing-credential `ValueError`. -/
def apiKeyMsg : String := "OPENAI_API_KEY environment variable is not set"

/-- Shared body of all four service constructors (`__init__`, e.g.
`workflow_generator.py` lines 15-20): read the credential variable and
raise `ValueError` when it is falsy (`None` or the empty string). -/
def initClient (env : Env) : Except PyError Unit :=
  match env.OPENAI_API_KEY with
  | none => .error (.valueError apiKeyMsg)
  | some k => if k = "" then .error (.valueError apiKeyMsg) else .ok ()

/-- Outcome of the single `chat.completions.create` call, abstracting
the network: either the call raises (transport/auth/quota — not a
`ValueError`), or it returns a message whose content is falsy
(`returns none`), or content that parses to the given JSON value
(malformed-JSON content is not exercised by any claim). -/
inductive Upstream where
  | raises (msg : String)
  | returns (content : Option Json)

/-- Source message of the empty-response `ValueError`. -/
def emptyRespMsg : String := "AI did not return a response"

/-- The `response.choices[0].message.content` check shared by all four
services: raise `ValueError("AI did not return a response")` on falsy
content, otherwise hand the parsed JSON on. -/
def dispatch (up : Upstream) : Except PyError Json :=
  match up with
  | .raises m => .error (.upstreamError m)
  | .returns none => .error (.valueError emptyRespMsg)
  | .returns (some j) => .ok j

/-- Source schema-violation message: `AI response is missing required
'<field>' <kind>` where kind is `array` or `object`. -/
def missingFieldMsg (field kind : String) : String :=
  "AI response is missing required " ++ squote ++ field ++ squote ++ " " ++ kind

/-- Python `if <cond>: raise ValueError(<msg>)` as a monadic guard. -/
def raise_if (c : Bool) (msg : String) : Except PyError Unit :=
  if c then .error (.valueError msg) else .ok ()

theorem raise_if_false (m : String) : raise_if false m = .ok () := rfl

theorem raise_if_true (m : String) :
    raise_if true m = .error (.valueError m) := rfl

theorem except_bind_ok (a : α) (f : α → Except PyError β) :
    (Except.ok a : Except PyError α) >>= f = f a := rfl

theorem except_bind_err (e : PyError) (f : α → Except PyError β) :
    (Except.error e : Except PyError α) >>= f = .error e := rfl

theorem except_pure (a : α) : (pure a : Except PyError α) = .ok a := rfl

/-- A well-typed API parameter descriptor (schema `Parameter`): the
formatters read `name`, `in` (defaulted to `"query"` when absent) and
the truthiness of `required`. -/
structure ParamDesc where
  name : String
  location : Option String
  required : Bool

/-- A well-typed API endpoint descriptor (schema `Endpoint`). -/
structure EndpointDesc where
  id : String
  method : String
  path : String
  summary : Option String
  description : Option String
  parameters : List ParamDesc

namespace WorkflowGenerator

/-- `WorkflowGenerator._format_parameters` (lines 140-147): `"None"` for
an empty list, else a comma-joined `name (in, required/optional)` line. -/
def _format_parameters (params : List ParamDesc) : String :=
  if params.isEmpty then "None"
  else String.intercalate ", " (params.map fun p =>
    p.name ++ " (" ++ p.location.getD "query" ++ ", "
      ++ (if p.required then "required" else "optional") ++ ")")

/-- One endpoint's block of the prompt (the f-string of lines 68-73). -/
def endpoint_block (ep : EndpointDesc) : String :=
  "ID: " ++ ep.id ++ "\n" ++
  "Method: " ++ ep.method ++ "\n" ++
  "Path: " ++ ep.path ++ "\n" ++
  "Summary: " ++ ep.summary.getD "N/A" ++ "\n" ++
  "Description: " ++ ep.description.getD "N/A" ++ "\n" ++
  "Parameters: " ++ _format_parameters ep.parameters

/-- `endpoints_list` (lines 67-75): the blocks joined by the fixed
separator; the empty join for an empty endpoint list. -/
def format_endpoints (endpoints : List EndpointDesc) : String :=
  String.intercalate "\n\n---\n\n" (endpoints.map endpoint_block)

/-- `user_prompt` (lines 77-83). -/
def user_prompt (description : String) (endpoints : List EndpointDesc) : String :=
  "User" ++ squote ++ "s desired flow/outcome:\n\"" ++ description ++ "\"\n\n"
    ++ "Available API endpoints:\n" ++ format_endpoints endpoints
    ++ "\n\nAnalyze this and create an optimal workflow."

/-- One step of the `steps` comprehension (lines 110-119), evaluated in
Python's dict-literal order: the `id` f-string reads `ep['order']`
first, then `ep['endpointId']`, `ep['reasoning']`; `parameters` and
`dependsOn` are the only defaulted fields; a truthy `dependsOn` is
collapsed to a single `condition` string via `', '.join`. -/
def mk_step (ep : Json) : Except PyError Json := do
  let order ← dictItem ep "order"
  let endpointId ← dictItem ep "endpointId"
  let reasoning ← dictItem ep "reasoning"
  let params := dictGetD ep "parameters" (.obj [])
  let dep := dictGet ep "dependsOn"
  let cond ← if pyTruthy dep then do
      let deps ← strElems dep
      pure (Json.obj [("condition", Json.str ("depends on " ++ String.intercalate ", " deps))])
    else pure Json.null
  pure (Json.obj [
    ("id", .str ("step-" ++ pyStr order)),
    ("endpointId", endpointId),
    ("order", order),
    ("reasoning", reasoning),
    ("parameters", params),
    ("conditionalLogic", cond)])

/-- Validation and translation of the parsed model output (lines
104-138 of `generate_from_nl`): reject a missing / falsy / non-list
`selectedEndpoints`; build the steps; then assemble the response,
reading `workflowName`, `workflowDescription` and `explanation` by
plain indexing (`KeyError` when absent), and the `aiReasoning` side
list in input order. -/
def translate (workflow_data : Json) (spec_id : String) : Except PyError Json := do
  raise_if (!pyTruthy (dictGet workflow_data "selectedEndpoints")
      || !(dictGet workflow_data "selectedEndpoints").isArr)
    (missingFieldMsg "selectedEndpoints" "array")
  let se := (dictGet workflow_data "selectedEndpoints").elems
  let steps ← mapME mk_step se
  let name ← dictItem workflow_data "workflowName"
  let descr ← dictItem workflow_data "workflowDescription"
  let expl ← dictItem workflow_data "explanation"
  let reasons ← mapME (fun ep => do
      let eid ← dictItem ep "endpointId"
      let r ← dictItem ep "reasoning"
      pure (Json.obj [("endpointId", eid), ("reasoning", r)])) se
  pure (Json.obj [
    ("workflow", Json.obj [
      ("name", name),
      ("description", descr),
      ("steps", Json.arr steps),
      ("specId", .str spec_id)]),
    ("explanation", expl),
    ("aiReasoning", Json.arr reasons)])

/-- `WorkflowGenerator.generate_from_nl` end to end: construct the
client (fails fast on a missing credential), build the prompt, make the
one completion call, then validate and translate. -/
def generate_from_nl (env : Env) (up : Upstream) (description : String)
    (endpoints : List EndpointDesc) (spec_id : String) : Except PyError Json := do
  initClient env
  let _prompt := user_prompt description endpoints
  let wd ← dispatch up
  translate wd spec_id

end WorkflowGenerator

namespace FlowSuggester

/-- `FlowSuggester._format_endpoints` (lines 92-101): like the
generator's, but without the `Parameters` line. -/
def _format_endpoints (endpoints : List EndpointDesc) : String :=
  String.intercalate "\n\n---\n\n" (endpoints.map fun ep =>
    "ID: " ++ ep.id ++ "\n" ++
    "Method: " ++ ep.method ++ "\n" ++
    "Path: " ++ ep.path ++ "\n" ++
    "Summary: " ++ ep.summary.getD "N/A" ++ "\n" ++
    "Description: " ++ ep.description.getD "N/A")

/-- Validation and translation of `suggest_flows` (lines 82-90): reject
a missing / falsy / non-list `suggestedFlows`; pass the flow list
through unchanged, default a missing `apiSummary` to the fixed
placeholder, attach the caller's `spec_id`. -/
def translate (data : Json) (spec_id : String) : Except PyError Json := do
  raise_if (!pyTruthy (dictGet data "suggestedFlows")
      || !(dictGet data "suggestedFlows").isArr)
    (missingFieldMsg "suggestedFlows" "array")
  let flows ← dictItem data "suggestedFlows"
  pure (Json.obj [
    ("suggestedFlows", flows),
    ("apiSummary", dictGetD data "apiSummary" (.str "API analysis complete")),
    ("specId", .str spec_id)])

/-- `FlowSuggester.suggest_flows` end to end. -/
def suggest_flows (env : Env) (up : Upstream)
    (endpoints : List EndpointDesc) (spec_id : String) : Except PyError Json := do
  initClient env
  let _prompt := _format_endpoints endpoints
  let data ← dispatch up
  translate data spec_id

end FlowSuggester

namespace PatternLearner

/-- Validation and translation of `learn` (lines 90-97): reject a
missing / falsy `patterns` (note: no `isinstance` check here, unlike
the three list-valued fields); pass `patterns` through unchanged and
default a missing `confidence` to `0.8`. -/
def translate (data : Json) : Except PyError Json := do
  raise_if (!pyTruthy (dictGet data "patterns"))
    (missingFieldMsg "patterns" "object")
  let p ← dictItem data "patterns"
  pure (Json.obj [
    ("patterns", p),
    ("confidence", dictGetD data "confidence" (.float (0.8 : ℚ)))])

/-- `PatternLearner.learn` end to end.  The prompt text built from the
reference workflow (`_format_workflow`, lines 99-137) is purely textual
and affects no claim; it is not reproduced here. -/
def learn (env : Env) (up : Upstream)
    (_referenceWorkflow : Json) (_referenceEndpoints : List EndpointDesc) :
    Except PyError Json := do
  initClient env
  let data ← dispatch up
  translate data

end PatternLearner

namespace AutoBuilder

/-- Body of the injection loop of `build` (lines 117-119): when the
item has a `workflow` key whose (dict) value lacks `specId`, assign
`specId` in place — dict assignment appends the new key at the end of
the nested dict and leaves every other field of the item alone.
Python's `in` test raises `TypeError` on a non-container; membership
tests on non-dict containers are never exercised by any claim. -/
def inject_spec_id (item : Json) (spec_id : String) : Except PyError Json :=
  match item with
  | .obj fields =>
    match lookupField fields "workflow" with
    | some (.obj wfields) =>
        if (lookupField wfields "specId").isSome then .ok item
        else .ok (.obj (setKey fields "workflow"
          (.obj (wfields ++ [("specId", Json.str spec_id)]))))
    | some _ => .error (.typeError "argument is not a mapping")
    | none => .ok item
  | _ => .error (.typeError "argument of the in test is not a container")

/-- Validation and translation of `build` (lines 112-123): reject a
missing / falsy / non-list `workflows`; run the injection loop over the
items and return them under the `workflows` key. -/
def translate (data : Json) (spec_id : String) : Except PyError Json := do
  raise_if (!pyTruthy (dictGet data "workflows")
      || !(dictGet data "workflows").isArr)
    (missingFieldMsg "workflows" "array")
  let items ← mapME (inject_spec_id · spec_id) (dictGet data "workflows").elems
  pure (Json.obj [("workflows", Json.arr items)])

/-- `AutoBuilder.build` end to end.  The prompt text built by
`_format_suggestions` / `_format_patterns` / `_format_endpoints`
(lines 125-161) is purely textual and affects no claim; it is not
reproduced here. -/
def build (env : Env) (up : Upstream) (_suggested_flows : List Json)
    (_learned_patterns : Json) (_endpoints : List EndpointDesc)
    (spec_id : String) : Except PyError Json := do
  initClient env
  let data ← dispatch up
  translate data spec_id

end AutoBuilder

/-- Result of a FastAPI handler: a 200 success envelope, a 400
`HTTPException` (raised for `ValueError`), or a 500 `HTTPException`
(raised for any other exception, with the handler's message as prefix). -/
inductive HttpResult where
  | success (body : Json)
  | clientError (detail : String)
  | serverError (detail : String)

/-- Whether a handler result is in the server-error (500) class. -/
def HttpResult.isServerError : HttpResult → Bool
  | .serverError _ => true
  | _ => false

/-- Whether a handler result is in the client-input-error (400) class. -/
def HttpResult.isClientError : HttpResult → Bool
  | .clientError _ => true
  | _ => false

/-- Python `str(e)` as rendered into the HTTP detail: `str` of a
`KeyError` is the `repr` of the missing key (the key wrapped in single
quotes); `str` of the other exceptions is their message. -/
def PyError.message : PyError → String
  | .valueError m => m
  | .keyError k => squote ++ k ++ squote
  | .typeError m => m
  | .upstreamError m => m

/-- The shared `try/except` shape of the four handlers in `api.py`:
`{"success": True, "data": result}` on success, 400 with `str(e)` for a
`ValueError`, 500 with the handler's fixed prefix for anything else. -/
def handle (failMsg : String) (r : Except PyError Json) : HttpResult :=
  match r with
  | .ok d => .success (Json.obj [("success", .bool true), ("data", d)])
  | .error (.valueError m) => .clientError m
  | .error e => .serverError (failMsg ++ e.message)

/-- Identity of one constructed service instance (each wraps its own
OpenAI client). -/
structure ServiceHandle where
  id : Nat
deriving DecidableEq, Repr

/-- The module-level state of `api.py` (lines 38-41): four independent
lazily-initialized globals, plus a counter witnessing construction
order/identity. -/
structure AppState where
  nextId : Nat
  _workflow_gen : Option ServiceHandle
  _flow_suggester : Option ServiceHandle
  _pattern_learner : Option ServiceHandle
  _auto_builder : Option ServiceHandle
deriving DecidableEq, Repr

/-- The state at process start: no service constructed yet. -/
def initialState : AppState := ⟨0, none, none, none, none⟩

/-- `get_workflow_generator` (lines 44-49): construct on first access
(running the credential check of `__init__`), reuse afterwards. -/
def get_workflow_generator (env : Env) (s : AppState) :
    Except PyError (ServiceHandle × AppState) :=
  match s._workflow_gen with
  | some h => .ok (h, s)
  | none => do
      initClient env
      let h : ServiceHandle := ⟨s.nextId⟩
      pure (h, { s with nextId := s.nextId + 1, _workflow_gen := some h })

/-- `get_flow_suggester` (lines 52-57). -/
def get_flow_suggester (env : Env) (s : AppState) :
    Except PyError (ServiceHandle × AppState) :=
  match s._flow_suggester with
  | some h => .ok (h, s)
  | none => do
      initClient env
      let h : ServiceHandle := ⟨s.nextId⟩
      pure (h, { s with nextId := s.nextId + 1, _flow_suggester := some h })

/-- `get_pattern_learner` (lines 60-65). -/
def get_pattern_learner (env : Env) (s : AppState) :
    Except PyError (ServiceHandle × AppState) :=
  match s._pattern_learner with
  | some h => .ok (h, s)
  | none => do
      initClient env
      let h : ServiceHandle := ⟨s.nextId⟩
      pure (h, { s with nextId := s.nextId + 1, _pattern_learner := some h })

/-- `get_auto_builder` (lines 68-73). -/
def get_auto_builder (env : Env) (s : AppState) :
    Except PyError (ServiceHandle × AppState) :=
  match s._auto_builder with
  | some h => .ok (h, s)
  | none => do
      initClient env
      let h : ServiceHandle := ⟨s.nextId⟩
      pure (h, { s with nextId := s.nextId + 1, _auto_builder := some h })

namespace Api

/-- Handler `generate_workflow` (lines 95-115). -/
def generate_workflow (env : Env) (up : Upstream) (description : String)
    (endpoints : List EndpointDesc) (specId : String) : HttpResult :=
  handle "Failed to generate workflow: "
    (WorkflowGenerator.generate_from_nl env up description endpoints specId)

/-- Handler `suggest_flows` (lines 118-136). -/
def suggest_flows (env : Env) (up : Upstream)
    (endpoints : List EndpointDesc) (specId : String) : HttpResult :=
  handle "Failed to suggest flows: "
    (FlowSuggester.suggest_flows env up endpoints specId)

/-- Handler `learn_pattern` (lines 139-157). -/
def learn_pattern (env : Env) (up : Upstream)
    (referenceWorkflow : Json) (referenceEndpoints : List EndpointDesc) : HttpResult :=
  handle "Failed to learn pattern: "
    (PatternLearner.learn env up referenceWorkflow referenceEndpoints)

/-- Handler `auto_build` (lines 160-181). -/
def auto_build (env : Env) (up : Upstream) (suggestedFlows : List Json)
    (learnedPatterns : Json) (endpoints : List EndpointDesc)
    (specId : String) : HttpResult :=
  handle "Failed to auto-build flows: "
    (AutoBuilder.build env up suggestedFlows learnedPatterns endpoints specId)

end Api

/-!
Claim-side input shapes: concrete well-formed model outputs, used to
quantify the functional-correctness claims over arbitrary entries.
-/

/-- One well-formed entry of the model's `selectedEndpoints` list:
`endpointId`, `order` and `reasoning` present; `parameters` and
`dependsOn` optional (the only fields the translator defaults). -/
structure SelEntry where
  endpointId : String
  order : Int
  reasoning : String
  parameters : Option Json
  dependsOn : Option (List String)

/-- The JSON object the model would return for one entry. -/
def SelEntry.toJson (e : SelEntry) : Json :=
  .obj ([("endpointId", Json.str e.endpointId),
         ("order", Json.int e.order),
         ("reasoning", Json.str e.reasoning)]
    ++ (match e.parameters with | some p => [("parameters", p)] | none => [])
    ++ (match e.dependsOn with
        | some l => [("dependsOn", Json.arr (l.map Json.str))]
        | none => []))

/-- The step the endpoint-selection claim describes for one entry:
id `step-<order>`, the entry's fields, parameters defaulted to `{}`,
and `conditionalLogic` null unless `dependsOn` is a non-empty list, in
which case a single condition string `depends on <joined list>`. -/
def SelEntry.expectedStep (e : SelEntry) : Json :=
  .obj [
    ("id", .str ("step-" ++ toString e.order)),
    ("endpointId", .str e.endpointId),
    ("order", .int e.order),
    ("reasoning", .str e.reasoning),
    ("parameters", e.parameters.getD (.obj [])),
    ("conditionalLogic",
      match e.dependsOn with
      | some (d :: ds) =>
          Json.obj [("condition",
            Json.str ("depends on " ++ String.intercalate ", " (d :: ds)))]
      | _ => Json.null)]

/-- The expected `aiReasoning` item for one entry. -/
def SelEntry.expectedReason (e : SelEntry) : Json :=
  .obj [("endpointId", .str e.endpointId), ("reasoning", .str e.reasoning)]

/-- A complete well-formed model output for endpoint selection. -/
def mkWorkflowData (entries : List SelEntry) (wn wdesc expl : String) : Json :=
  .obj [("workflowName", .str wn),
        ("workflowDescription", .str wdesc),
        ("selectedEndpoints", .arr (entries.map SelEntry.toJson)),
        ("explanation", .str expl)]

/-- A model output for the suggestion operation: a flow list and an
optional `apiSummary` field. -/
def mkSuggestData (flows : List Json) (summary : Option Json) : Json :=
  .obj (("suggestedFlows", Json.arr flows)
    :: (match summary with | some s => [("apiSummary", s)] | none => []))

/-- A model output for the pattern operation: a `patterns` object and an
optional `confidence` field. -/
def mkLearnData (pfields : List (String × Json)) (conf : Option Json) : Json :=
  .obj (("patterns", Json.obj pfields)
    :: (match conf with | some c => [("confidence", c)] | none => []))

/-!
Helper lemmas.
-/

theorem strElems_map_str (l : List String) :
    strElems (Json.arr (l.map Json.str)) = .ok l := by
  induction l with
  | nil => rfl
  | cons d ds ih =>
      simp only [strElems, List.map_cons, mapME] at ih ⊢
      rw [show (mapME (fun j => match j with
            | .str s => Except.ok s
            | _ => .error (.typeError "sequence item: expected str instance"))
            (ds.map Json.str)) = .ok ds from ih]
      rfl

theorem strElems_cons (d : String) (ds : List String) :
    strElems (Json.arr (Json.str d :: ds.map Json.str)) = .ok (d :: ds) :=
  strElems_map_str (d :: ds)

theorem mk_step_ok (e : SelEntry) :
    WorkflowGenerator.mk_step e.toJson = .ok e.expectedStep := by
  obtain ⟨eid, ord, reas, hp, hd⟩ := e
  cases hp <;> rcases hd with _ | (_ | ⟨d, ds⟩) <;>
    simp only [WorkflowGenerator.mk_step, SelEntry.toJson, SelEntry.expectedStep,
      dictItem, dictGet, dictGetD, Json.getKey, lookupField,
      List.append_nil, List.cons_append, List.nil_append,
      List.map_cons, List.map_nil,
      String.reduceEq, reduceIte, Option.getD_some, Option.getD_none,
      pyTruthy, pyStr, List.isEmpty_cons, List.isEmpty_nil,
      Bool.not_false, Bool.not_true, strElems_cons] <;>
    rfl

theorem mapME_steps_ok (entries : List SelEntry) :
    mapME WorkflowGenerator.mk_step (entries.map SelEntry.toJson) =
      .ok (entries.map SelEntry.expectedStep) := by
  induction entries with
  | nil => rfl
  | cons e es ih =>
      simp only [List.map_cons, mapME, mk_step_ok, ih]
      rfl

theorem mapME_steps_cons (e : SelEntry) (es : List SelEntry) :
    mapME WorkflowGenerator.mk_step (e.toJson :: es.map SelEntry.toJson) =
      .ok (e.expectedStep :: es.map SelEntry.expectedStep) :=
  mapME_steps_ok (e :: es)

theorem mapME_reasons_ok (entries : List SelEntry) :
    mapME (fun ep => do
        let eid ← dictItem ep "endpointId"
        let r ← dictItem ep "reasoning"
        Except.ok (Json.obj [("endpointId", eid), ("reasoning", r)]))
      (entries.map SelEntry.toJson) =
      .ok (entries.map SelEntry.expectedReason) := by
  induction entries with
  | nil => rfl
  | cons e es ih =>
      simp only [List.map_cons, mapME, ih]
      cases hp : e.parameters <;> cases hd : e.dependsOn <;>
        simp only [SelEntry.toJson, SelEntry.expectedReason, dictItem,
          Json.getKey, lookupField, hp, hd] <;> rfl

theorem mapME_reasons_cons (e : SelEntry) (es : List SelEntry) :
    mapME (fun ep => do
        let eid ← dictItem ep "endpointId"
        let r ← dictItem ep "reasoning"
        Except.ok (Json.obj [("endpointId", eid), ("reasoning", r)]))
      (e.toJson :: es.map SelEntry.toJson) =
      .ok (e.expectedReason :: es.map SelEntry.expectedReason) :=
  mapME_reasons_ok (e :: es)

/-- The endpoint-selection translation on any well-formed non-empty
entry list, stated with an explicit head so the non-emptiness is
structural. -/
theorem translate_mk (e : SelEntry) (es : List SelEntry)
    (wn wdesc expl spec_id : String) :
    WorkflowGenerator.translate (mkWorkflowData (e :: es) wn wdesc expl) spec_id =
      .ok (Json.obj [
        ("workflow", Json.obj [
          ("name", .str wn),
          ("description", .str wdesc),
          ("steps", Json.arr ((e :: es).map SelEntry.expectedStep)),
          ("specId", .str spec_id)]),
        ("explanation", .str expl),
        ("aiReasoning", Json.arr ((e :: es).map SelEntry.expectedReason))]) := by
  have harg : dictGet (mkWorkflowData (e :: es) wn wdesc expl) "selectedEndpoints"
      = Json.arr (e.toJson :: es.map SelEntry.toJson) := rfl
  have hn : dictItem (mkWorkflowData (e :: es) wn wdesc expl) "workflowName"
      = .ok (.str wn) := rfl
  have hdes : dictItem (mkWorkflowData (e :: es) wn wdesc expl) "workflowDescription"
      = .ok (.str wdesc) := rfl
  have hx : dictItem (mkWorkflowData (e :: es) wn wdesc expl) "explanation"
      = .ok (.str expl) := rfl
  simp only [WorkflowGenerator.translate, harg, hn, hdes, hx,
    Json.elems, Json.isArr, pyTruthy, List.isEmpty_cons,
    Bool.not_false, Bool.not_true, Bool.or_self,
    raise_if_false, except_bind_ok, except_pure,
    mapME_steps_cons, mapME_reasons_cons, List.map_cons]

/-- C1: for the endpoint-selection operation, given model output whose
`selectedEndpoints` list holds well-formed entries, the translated
response has exactly one step per entry, in order, with id
`step-<order>`, the entry's `endpointId`, `order` and `reasoning`;
`conditionalLogic` is null when `dependsOn` is empty or absent and a
`depends on <joined list>` condition otherwise — in particular
`depends on step-0` for `dependsOn = ["step-0"]`; the workflow's
`specId` is the caller-supplied spec id; and `aiReasoning` pairs each
entry's `endpointId` with its `reasoning` in input order. -/
theorem C1_generate_translation (entries : List SelEntry)
    (wn wdesc expl spec_id : String) (h : entries ≠ []) :
    WorkflowGenerator.translate (mkWorkflowData entries wn wdesc expl) spec_id =
      .ok (Json.obj [
        ("workflow", Json.obj [
          ("name", .str wn),
          ("description", .str wdesc),
          ("steps", Json.arr (entries.map SelEntry.expectedStep)),
          ("specId", .str spec_id)]),
        ("explanation", .str expl),
        ("aiReasoning", Json.arr (entries.map SelEntry.expectedReason))])
    ∧ SelEntry.expectedStep ⟨"e1", 0, "r0", none, some ["step-0"]⟩ =
      Json.obj [
        ("id", .str "step-0"),
        ("endpointId", .str "e1"),
        ("order", .int 0),
        ("reasoning", .str "r0"),
        ("parameters", .obj []),
        ("conditionalLogic", .obj [("condition", .str "depends on step-0")])] := by
  refine ⟨?_, by rfl⟩
  match entries, h with
  | e :: es, _ => exact translate_mk e es wn wdesc expl spec_id

/-- Witness for C1 at a concrete two-entry model output. -/
theorem C1_generate_translation_witness :
    WorkflowGenerator.translate
        (mkWorkflowData
          [⟨"e1", 0, "r0", none, none⟩, ⟨"e2", 1, "r1", some (.obj []), some ["step-0"]⟩]
          "W" "D" "X") "spec-9" =
      .ok (Json.obj [
        ("workflow", Json.obj [
          ("name", .str "W"),
          ("description", .str "D"),
          ("steps", Json.arr [
            Json.obj [
              ("id", .str "step-0"), ("endpointId", .str "e1"), ("order", .int 0),
              ("reasoning", .str "r0"), ("parameters", .obj []),
              ("conditionalLogic", .null)],
            Json.obj [
              ("id", .str "step-1"), ("endpointId", .str "e2"), ("order", .int 1),
              ("reasoning", .str "r1"), ("parameters", .obj []),
              ("conditionalLogic", .obj [("condition", .str "depends on step-0")])]]),
          ("specId", .str "spec-9")]),
        ("explanation", .str "X"),
        ("aiReasoning", Json.arr [
          Json.obj [("endpointId", .str "e1"), ("reasoning", .str "r0")],
          Json.obj [("endpointId", .str "e2"), ("reasoning", .str "r1")]])]) := by
  have := (C1_generate_translation
    [⟨"e1", 0, "r0", none, none⟩, ⟨"e2", 1, "r1", some (.obj []), some ["step-0"]⟩]
    "W" "D" "X" "spec-9" (by simp)).1
  simpa [SelEntry.expectedStep, SelEntry.expectedReason] using this

/-- C7: for the suggestion operation, given model output with a
non-empty `suggestedFlows` list, the response's `suggestedFlows` is the
model's list unchanged, `specId` is the caller-supplied spec id, and
`apiSummary` is the model's value when present and the fixed
placeholder `API analysis complete` when omitted. -/
theorem C7_suggest_translation (flows : List Json) (summary : Option Json)
    (spec_id : String) (h : flows ≠ []) :
    FlowSuggester.translate (mkSuggestData flows summary) spec_id =
      .ok (Json.obj [
        ("suggestedFlows", Json.arr flows),
        ("apiSummary", summary.getD (.str "API analysis complete")),
        ("specId", .str spec_id)]) := by
  match flows, h with
  | f :: fs, _ => cases summary <;> rfl

/-- Witness for C7: one flow, `apiSummary` omitted, the placeholder
appears. -/
theorem C7_suggest_translation_witness :
    FlowSuggester.translate (mkSuggestData [Json.str "flow1"] none) "spec-2" =
      .ok (Json.obj [
        ("suggestedFlows", Json.arr [Json.str "flow1"]),
        ("apiSummary", .str "API analysis complete"),
        ("specId", .str "spec-2")]) :=
  C7_suggest_translation [Json.str "flow1"] none "spec-2" (by simp)

/-- C8: for the pattern-extraction operation, given model output whose
`patterns` field is a (non-empty, hence truthy) object, the response's
`patterns` is that object unchanged, and `confidence` is the model's
value when present and `0.8` when omitted. -/
theorem C8_learn_translation (pfields : List (String × Json))
    (conf : Option Json) (h : pfields ≠ []) :
    PatternLearner.translate (mkLearnData pfields conf) =
      .ok (Json.obj [
        ("patterns", Json.obj pfields),
        ("confidence", conf.getD (.float (0.8 : ℚ)))]) := by
  match pfields, h with
  | p :: ps, _ => cases conf <;> rfl

/-- Witness for C8: a one-field patterns object, `confidence` omitted,
the `0.8` default appears. -/
theorem C8_learn_translation_witness :
    PatternLearner.translate
        (mkLearnData [("structure", Json.str "sequential")] none) =
      .ok (Json.obj [
        ("patterns", Json.obj [("structure", Json.str "sequential")]),
        ("confidence", Json.float (0.8 : ℚ))]) :=
  C8_learn_translation [("structure", Json.str "sequential")] none (by simp)

theorem lookup_setKey_self (l : List (String × Json)) (k : String) (v : Json) :
    lookupField (setKey l k v) k = some v := by
  induction l with
  | nil => simp [setKey, lookupField]
  | cons p rest ih =>
      obtain ⟨a, b⟩ := p
      by_cases ha : a = k <;> simp [setKey, lookupField, ha, ih]

theorem lookup_setKey_other (l : List (String × Json)) (k k' : String)
    (v : Json) (h : k' ≠ k) :
    lookupField (setKey l k v) k' = lookupField l k' := by
  induction l with
  | nil => simp [setKey, lookupField, Ne.symm h]
  | cons p rest ih =>
      obtain ⟨a, b⟩ := p
      by_cases ha : a = k
      · subst ha
        simp [setKey, lookupField, Ne.symm h]
      · simp [setKey, lookupField, ha, ih]

theorem lookup_append_other (l : List (String × Json)) (k k' : String)
    (v : Json) (h : k' ≠ k) :
    lookupField (l ++ [(k, v)]) k' = lookupField l k' := by
  induction l with
  | nil => simp [lookupField, Ne.symm h]
  | cons p rest ih =>
      obtain ⟨a, b⟩ := p
      by_cases ha : a = k' <;> simp [lookupField, ha, ih]

theorem lookup_append_last (l : List (String × Json)) (k : String) (v : Json)
    (h : lookupField l k = none) :
    lookupField (l ++ [(k, v)]) k = some v := by
  induction l with
  | nil => simp [lookupField]
  | cons p rest ih =>
      obtain ⟨a, b⟩ := p
      by_cases ha : a = k
      · rw [lookupField, if_pos ha] at h
        exact absurd h (by simp)
      · rw [lookupField, if_neg ha] at h
        rw [List.cons_append, lookupField, if_neg ha]
        exact ih h

/-- C2: for the composition operation, an item whose nested `workflow`
object lacks `specId` gets the caller-supplied spec id appended to that
object, and no other field of the item or of the nested object changes;
an item whose nested object already has `specId` is returned entirely
unchanged; and the translator applies this to every item of the model's
`workflows` list. -/
theorem C2_build_injection (fields wfields : List (String × Json))
    (spec_id : String)
    (h : lookupField fields "workflow" = some (.obj wfields)) :
    (lookupField wfields "specId" ≠ none →
       AutoBuilder.inject_spec_id (.obj fields) spec_id = .ok (.obj fields))
    ∧ (lookupField wfields "specId" = none →
       AutoBuilder.inject_spec_id (.obj fields) spec_id =
         .ok (.obj (setKey fields "workflow"
           (.obj (wfields ++ [("specId", Json.str spec_id)]))))
       ∧ lookupField (setKey fields "workflow"
           (.obj (wfields ++ [("specId", Json.str spec_id)]))) "workflow"
           = some (.obj (wfields ++ [("specId", Json.str spec_id)]))
       ∧ (∀ k, k ≠ "workflow" →
           lookupField (setKey fields "workflow"
             (.obj (wfields ++ [("specId", Json.str spec_id)]))) k
             = lookupField fields k)
       ∧ lookupField (wfields ++ [("specId", Json.str spec_id)]) "specId"
           = some (.str spec_id)
       ∧ (∀ k, k ≠ "specId" →
           lookupField (wfields ++ [("specId", Json.str spec_id)]) k
             = lookupField wfields k))
    ∧ (∀ (items out : List Json), items ≠ [] →
         mapME (AutoBuilder.inject_spec_id · spec_id) items = .ok out →
         AutoBuilder.translate (Json.obj [("workflows", Json.arr items)]) spec_id =
           .ok (Json.obj [("workflows", Json.arr out)])) := by
  refine ⟨?_, ?_, ?_⟩
  · intro hs
    simp only [AutoBuilder.inject_spec_id, h]
    rw [if_pos (Option.isSome_iff_ne_none.mpr hs)]
  · intro hs
    refine ⟨?_, lookup_setKey_self _ _ _,
      fun k hk => lookup_setKey_other _ _ _ _ hk,
      lookup_append_last _ _ _ hs,
      fun k hk => lookup_append_other _ _ _ _ hk⟩
    simp only [AutoBuilder.inject_spec_id, h]
    rw [if_neg (by simp [hs])]
  · intro items out hne hmap
    match items, hne with
    | i :: is, _ =>
      have harg : dictGet (Json.obj [("workflows", Json.arr (i :: is))]) "workflows"
          = Json.arr (i :: is) := rfl
      simp only [AutoBuilder.translate, harg, Json.elems, Json.isArr, pyTruthy,
        List.isEmpty_cons, Bool.not_false, Bool.not_true, Bool.or_self,
        raise_if_false, except_bind_ok, hmap, except_pure]

/-- Witness for C2: a two-item workflows list — the first item's nested
workflow lacks `specId` and gets it appended; the second already has
one and passes through untouched. -/
theorem C2_build_injection_witness :
    AutoBuilder.inject_spec_id
        (Json.obj [("flow_id", .str "f1"), ("workflow", .obj [("name", .str "W")])])
        "spec-3" =
      .ok (Json.obj [("flow_id", .str "f1"),
        ("workflow", .obj [("name", .str "W"), ("specId", .str "spec-3")])])
    ∧ AutoBuilder.inject_spec_id
        (Json.obj [("workflow", .obj [("specId", .str "keep")])]) "spec-3" =
      .ok (Json.obj [("workflow", .obj [("specId", .str "keep")])]) := by
  constructor
  · exact ((C2_build_injection
      [("flow_id", .str "f1"), ("workflow", .obj [("name", .str "W")])]
      [("name", .str "W")] "spec-3" rfl).2.1 rfl).1
  · exact (C2_build_injection [("workflow", .obj [("specId", .str "keep")])]
      [("specId", .str "keep")] "spec-3" rfl).1 (by simp [lookupField])


/-- C9 counterexample: with a valid credential, a fresh process serving
an endpoint-selection request and then a suggestion request constructs
two distinct service instances (each wrapping its own client) — the
four operations do not share one singleton handle. -/
theorem C9_counterexample :
    get_workflow_generator ⟨some "k"⟩ initialState =
      .ok (⟨0⟩, ⟨1, some ⟨0⟩, none, none, none⟩)
    ∧ get_flow_suggester ⟨some "k"⟩ ⟨1, some ⟨0⟩, none, none, none⟩ =
      .ok (⟨1⟩, ⟨2, some ⟨0⟩, some ⟨1⟩, none, none⟩)
    ∧ (⟨0⟩ : ServiceHandle) ≠ ⟨1⟩ :=
  ⟨rfl, rfl, by decide⟩

/-- C9 amended: each of the four operations routes through its own
lazily-constructed singleton service instance: per accessor, the
instance is constructed at most once, on first access, and any later
call in the resulting state returns the same handle and leaves the
state unchanged — so subsequent invocations of that operation reuse it
for the life of the process.  The four operations do not share one
handle (see the counterexample). -/
theorem C9_lazy_singletons (env : Env) (s t : AppState) (g : ServiceHandle) :
    (get_workflow_generator env s = .ok (g, t) →
       get_workflow_generator env t = .ok (g, t))
    ∧ (get_flow_suggester env s = .ok (g, t) →
       get_flow_suggester env t = .ok (g, t))
    ∧ (get_pattern_learner env s = .ok (g, t) →
       get_pattern_learner env t = .ok (g, t))
    ∧ (get_auto_builder env s = .ok (g, t) →
       get_auto_builder env t = .ok (g, t)) := by
  refine ⟨?_, ?_, ?_, ?_⟩ <;> intro hyp
  · rcases hw : s._workflow_gen with _ | h0
    · rcases hi : initClient env with e | u
      · simp only [get_workflow_generator, hw, hi, except_bind_err] at hyp
        exact Except.noConfusion hyp
      · simp only [get_workflow_generator, hw, hi, except_bind_ok,
          except_pure] at hyp
        obtain ⟨h1, h2⟩ := Prod.mk.inj (Except.ok.inj hyp)
        subst h1; subst h2
        rfl
    · simp only [get_workflow_generator, hw] at hyp
      obtain ⟨h1, h2⟩ := Prod.mk.inj (Except.ok.inj hyp)
      subst h1; subst h2
      simp only [get_workflow_generator, hw]
  · rcases hw : s._flow_suggester with _ | h0
    · rcases hi : initClient env with e | u
      · simp only [get_flow_suggester, hw, hi, except_bind_err] at hyp
        exact Except.noConfusion hyp
      · simp only [get_flow_suggester, hw, hi, except_bind_ok,
          except_pure] at hyp
        obtain ⟨h1, h2⟩ := Prod.mk.inj (Except.ok.inj hyp)
        subst h1; subst h2
        rfl
    · simp only [get_flow_suggester, hw] at hyp
      obtain ⟨h1, h2⟩ := Prod.mk.inj (Except.ok.inj hyp)
      subst h1; subst h2
      simp only [get_flow_suggester, hw]
  · rcases hw : s._pattern_learner with _ | h0
    · rcases hi : initClient env with e | u
      · simp only [get_pattern_learner, hw, hi, except_bind_err] at hyp
        exact Except.noConfusion hyp
      · simp only [get_pattern_learner, hw, hi, except_bind_ok,
          except_pure] at hyp
        obtain ⟨h1, h2⟩ := Prod.mk.inj (Except.ok.inj hyp)
        subst h1; subst h2
        rfl
    · simp only [get_pattern_learner, hw] at hyp
      obtain ⟨h1, h2⟩ := Prod.mk.inj (Except.ok.inj hyp)
      subst h1; subst h2
      simp only [get_pattern_learner, hw]
  · rcases hw : s._auto_builder with _ | h0
    · rcases hi : initClient env with e | u
      · simp only [get_auto_builder, hw, hi, except_bind_err] at hyp
        exact Except.noConfusion hyp
      · simp only [get_auto_builder, hw, hi, except_bind_ok,
          except_pure] at hyp
        obtain ⟨h1, h2⟩ := Prod.mk.inj (Except.ok.inj hyp)
        subst h1; subst h2
        rfl
    · simp only [get_auto_builder, hw] at hyp
      obtain ⟨h1, h2⟩ := Prod.mk.inj (Except.ok.inj hyp)
      subst h1; subst h2
      simp only [get_auto_builder, hw]

/-- Witness for C9: a second access to the workflow-generator accessor,
after the first constructed it, returns the same handle and state. -/
theorem C9_lazy_singletons_witness :
    get_workflow_generator ⟨some "k"⟩ ⟨1, some ⟨0⟩, none, none, none⟩ =
      .ok (⟨0⟩, ⟨1, some ⟨0⟩, none, none, none⟩) :=
  (C9_lazy_singletons ⟨some "k"⟩ initialState
    ⟨1, some ⟨0⟩, none, none, none⟩ ⟨0⟩).1 rfl

/-- C4 counterexample: with the credential variable absent, the
endpoint-selection request is answered with a client-input-error (400)
response carrying the configuration message — not a server-error (500)
response as the claim states.  (`__init__` raises `ValueError`, and the
handler maps `ValueError` to 400.) -/
theorem C4_counterexample :
    Api.generate_workflow ⟨none⟩ (.returns (some (Json.obj []))) "" [] "s" =
      .clientError apiKeyMsg
    ∧ (Api.generate_workflow ⟨none⟩ (.returns (some (Json.obj []))) "" [] "s").isServerError
      = false :=
  ⟨rfl, rfl⟩

/-- C4 amended: for all four operations, when the credential variable
is absent (or empty), service construction fails with the configuration
`ValueError` before any external call is issued — the outcome is the
same for every upstream behaviour — but the HTTP boundary surfaces it
as a client-input-error (400) status, because the handlers map
`ValueError` to 400. -/
theorem C4_missing_credential_amended (env : Env)
    (henv : env.OPENAI_API_KEY = none ∨ env.OPENAI_API_KEY = some "")
    (up : Upstream) (d sid : String) (eps : List EndpointDesc)
    (sf : List Json) (lp rwf : Json) :
    WorkflowGenerator.generate_from_nl env up d eps sid =
      .error (.valueError apiKeyMsg)
    ∧ FlowSuggester.suggest_flows env up eps sid =
      .error (.valueError apiKeyMsg)
    ∧ PatternLearner.learn env up rwf eps =
      .error (.valueError apiKeyMsg)
    ∧ AutoBuilder.build env up sf lp eps sid =
      .error (.valueError apiKeyMsg)
    ∧ Api.generate_workflow env up d eps sid = .clientError apiKeyMsg
    ∧ Api.suggest_flows env up eps sid = .clientError apiKeyMsg
    ∧ Api.learn_pattern env up rwf eps = .clientError apiKeyMsg
    ∧ Api.auto_build env up sf lp eps sid = .clientError apiKeyMsg := by
  have hi : initClient env = .error (.valueError apiKeyMsg) := by
    rcases henv with h | h <;> simp [initClient, h]
  refine ⟨?_, ?_, ?_, ?_, ?_, ?_, ?_, ?_⟩ <;>
    simp only [Api.generate_workflow, Api.suggest_flows, Api.learn_pattern,
      Api.auto_build, WorkflowGenerator.generate_from_nl,
      FlowSuggester.suggest_flows, PatternLearner.learn, AutoBuilder.build,
      hi, except_bind_err, handle]

/-- Witness for C4 amended, at a concrete empty-credential environment
and a concrete upstream. -/
theorem C4_missing_credential_amended_witness :
    Api.generate_workflow ⟨some ""⟩ (.raises "boom") "" [] "s" =
      .clientError apiKeyMsg :=
  (C4_missing_credential_amended ⟨some ""⟩ (Or.inr rfl) (.raises "boom")
    "" "s" [] [] Json.null Json.null).2.2.2.2.1

/-- C5 counterexample: with a valid credential and an upstream call
that succeeds but returns no content, the endpoint-selection request is
answered with a client-input-error (400) response carrying the
empty-response message — not a server-error (500) response as the claim
states.  (`AI did not return a response` is a `ValueError`, mapped to
400 by the handler.) -/
theorem C5_counterexample :
    Api.generate_workflow ⟨some "k"⟩ (.returns none) "" [] "s" =
      .clientError emptyRespMsg
    ∧ (Api.generate_workflow ⟨some "k"⟩ (.returns none) "" [] "s").isServerError
      = false :=
  ⟨rfl, rfl⟩

/-- C5 amended: for every operation, a transport-successful completion
with falsy content fails with the empty-response `ValueError`, surfaced
at the HTTP boundary as a client-input-error (400) status — not as a
server error; upstream calls that raise are, by contrast, surfaced with
a server-error (500) status. -/
theorem C5_empty_response_amended (env : Env)
    (henv : initClient env = .ok ()) (d sid m : String)
    (eps : List EndpointDesc) (sf : List Json) (lp rwf : Json) :
    (WorkflowGenerator.generate_from_nl env (.returns none) d eps sid =
       .error (.valueError emptyRespMsg)
     ∧ FlowSuggester.suggest_flows env (.returns none) eps sid =
       .error (.valueError emptyRespMsg)
     ∧ PatternLearner.learn env (.returns none) rwf eps =
       .error (.valueError emptyRespMsg)
     ∧ AutoBuilder.build env (.returns none) sf lp eps sid =
       .error (.valueError emptyRespMsg))
    ∧ (Api.generate_workflow env (.returns none) d eps sid =
         .clientError emptyRespMsg
       ∧ Api.suggest_flows env (.returns none) eps sid =
         .clientError emptyRespMsg
       ∧ Api.learn_pattern env (.returns none) rwf eps =
         .clientError emptyRespMsg
       ∧ Api.auto_build env (.returns none) sf lp eps sid =
         .clientError emptyRespMsg)
    ∧ (Api.generate_workflow env (.raises m) d eps sid =
         .serverError ("Failed to generate workflow: " ++ m)
       ∧ Api.suggest_flows env (.raises m) eps sid =
         .serverError ("Failed to suggest flows: " ++ m)
       ∧ Api.learn_pattern env (.raises m) rwf eps =
         .serverError ("Failed to learn pattern: " ++ m)
       ∧ Api.auto_build env (.raises m) sf lp eps sid =
         .serverError ("Failed to auto-build flows: " ++ m)) := by
  refine ⟨⟨?_, ?_, ?_, ?_⟩, ⟨?_, ?_, ?_, ?_⟩, ⟨?_, ?_, ?_, ?_⟩⟩ <;>
    simp only [Api.generate_workflow, Api.suggest_flows, Api.learn_pattern,
      Api.auto_build, WorkflowGenerator.generate_from_nl,
      FlowSuggester.suggest_flows, PatternLearner.learn, AutoBuilder.build,
      henv, dispatch, except_bind_ok, except_bind_err, handle,
      PyError.message]

/-- Witness for C5 amended at a concrete environment. -/
theorem C5_empty_response_amended_witness :
    Api.generate_workflow ⟨some "k"⟩ (.returns none) "" [] "s" =
      .clientError emptyRespMsg
    ∧ Api.auto_build ⟨some "k"⟩ (.raises "boom") [] Json.null [] "s" =
      .serverError ("Failed to auto-build flows: " ++ "boom") :=
  ⟨(C5_empty_response_amended ⟨some "k"⟩ rfl "" "s" "boom" [] []
      Json.null Json.null).2.1.1,
   (C5_empty_response_amended ⟨some "k"⟩ rfl "" "s" "boom" [] []
      Json.null Json.null).2.2.2.2.2⟩

/-- C3 counterexample: for the pattern-extraction operation, a
`patterns` field that is wrong-shaped per the claim (a string — not a
list, and not an object either) is truthy, so the operation does NOT
fail with a schema-violation error: it succeeds and passes the value
through.  (The `patterns` check has no `isinstance` test, unlike the
three list-valued fields.) -/
theorem C3_counterexample :
    PatternLearner.learn ⟨some "k"⟩
        (.returns (some (Json.obj [("patterns", Json.str "x")]))) Json.null [] =
      .ok (Json.obj [("patterns", Json.str "x"),
        ("confidence", Json.float (0.8 : ℚ))]) := rfl

/-- C3 amended: for the three list-valued operations, a missing, falsy
or non-list required field yields the schema-violation `ValueError`
naming the field, surfaced as a client-input-error (400) status; for
the pattern-extraction operation the same holds exactly when the
`patterns` field is missing or falsy (e.g. an empty object) — a truthy
wrong-shaped value is passed through (see the counterexample).  In
every failing case the translation is not applied. -/
theorem C3_schema_violation_amended (env : Env)
    (henv : initClient env = .ok ()) (wd : Json) (d sid : String)
    (eps : List EndpointDesc) (sf : List Json) (lp rwf : Json) :
    ((!pyTruthy (dictGet wd "selectedEndpoints")
        || !(dictGet wd "selectedEndpoints").isArr) = true →
       WorkflowGenerator.generate_from_nl env (.returns (some wd)) d eps sid =
         .error (.valueError (missingFieldMsg "selectedEndpoints" "array"))
       ∧ Api.generate_workflow env (.returns (some wd)) d eps sid =
         .clientError (missingFieldMsg "selectedEndpoints" "array"))
    ∧ ((!pyTruthy (dictGet wd "suggestedFlows")
        || !(dictGet wd "suggestedFlows").isArr) = true →
       FlowSuggester.suggest_flows env (.returns (some wd)) eps sid =
         .error (.valueError (missingFieldMsg "suggestedFlows" "array"))
       ∧ Api.suggest_flows env (.returns (some wd)) eps sid =
         .clientError (missingFieldMsg "suggestedFlows" "array"))
    ∧ ((!pyTruthy (dictGet wd "patterns")) = true →
       PatternLearner.learn env (.returns (some wd)) rwf eps =
         .error (.valueError (missingFieldMsg "patterns" "object"))
       ∧ Api.learn_pattern env (.returns (some wd)) rwf eps =
         .clientError (missingFieldMsg "patterns" "object"))
    ∧ ((!pyTruthy (dictGet wd "workflows")
        || !(dictGet wd "workflows").isArr) = true →
       AutoBuilder.build env (.returns (some wd)) sf lp eps sid =
         .error (.valueError (missingFieldMsg "workflows" "array"))
       ∧ Api.auto_build env (.returns (some wd)) sf lp eps sid =
         .clientError (missingFieldMsg "workflows" "array")) := by
  refine ⟨fun hc => ?_, fun hc => ?_, fun hc => ?_, fun hc => ?_⟩ <;>
    (constructor <;>
      simp only [Api.generate_workflow, Api.suggest_flows, Api.learn_pattern,
        Api.auto_build, WorkflowGenerator.generate_from_nl,
        FlowSuggester.suggest_flows, PatternLearner.learn, AutoBuilder.build,
        WorkflowGenerator.translate, FlowSuggester.translate,
        PatternLearner.translate, AutoBuilder.translate,
        henv, dispatch, except_bind_ok, except_bind_err, hc,
        raise_if_true, handle])

/-- Witness for C3 amended: an empty model output object lacks all four
required fields; every operation answers 400 with the field-naming
message. -/
theorem C3_schema_violation_amended_witness :
    Api.generate_workflow ⟨some "k"⟩ (.returns (some (Json.obj []))) "" [] "s" =
      .clientError (missingFieldMsg "selectedEndpoints" "array")
    ∧ Api.suggest_flows ⟨some "k"⟩ (.returns (some (Json.obj []))) [] "s" =
      .clientError (missingFieldMsg "suggestedFlows" "array")
    ∧ Api.learn_pattern ⟨some "k"⟩ (.returns (some (Json.obj []))) Json.null [] =
      .clientError (missingFieldMsg "patterns" "object")
    ∧ Api.auto_build ⟨some "k"⟩ (.returns (some (Json.obj []))) [] Json.null [] "s" =
      .clientError (missingFieldMsg "workflows" "array") := by
  have T := C3_schema_violation_amended ⟨some "k"⟩ rfl (Json.obj []) "" "s"
    [] [] Json.null Json.null
  exact ⟨(T.1 rfl).2, (T.2.1 rfl).2, (T.2.2.1 rfl).2, (T.2.2.2 rfl).2⟩

/-- C6 counterexample: an empty endpoint list renders as the empty join
(the empty string), not as the literal placeholder `None` the claim
requires. -/
theorem C6_counterexample :
    WorkflowGenerator.format_endpoints [] = ""
    ∧ ("" : String) ≠ "None" :=
  ⟨rfl, by decide⟩

/-- C6 amended: the formatters are total (they are plain functions of
well-typed input); an empty parameter list renders as the literal
placeholder `None` — each endpoint block ends in `Parameters: None` —
while an empty endpoint list renders as the empty join (the empty
string), not as `None`. -/
theorem C6_formatters_amended (e : EndpointDesc) (h : e.parameters = []) :
    WorkflowGenerator._format_parameters [] = "None"
    ∧ WorkflowGenerator.format_endpoints [] = ""
    ∧ WorkflowGenerator.endpoint_block e =
        "ID: " ++ e.id ++ "\n" ++ "Method: " ++ e.method ++ "\n"
          ++ "Path: " ++ e.path ++ "\n"
          ++ "Summary: " ++ e.summary.getD "N/A" ++ "\n"
          ++ "Description: " ++ e.description.getD "N/A" ++ "\n"
          ++ "Parameters: " ++ "None" := by
  refine ⟨rfl, rfl, ?_⟩
  rw [WorkflowGenerator.endpoint_block, h]
  rfl

/-- Witness for C6 amended at a concrete endpoint with no parameters. -/
theorem C6_formatters_amended_witness :
    WorkflowGenerator.endpoint_block ⟨"e1", "GET", "/a", none, none, []⟩ =
      "ID: " ++ "e1" ++ "\n" ++ "Method: " ++ "GET" ++ "\n"
        ++ "Path: " ++ "/a" ++ "\n"
        ++ "Summary: " ++ "N/A" ++ "\n"
        ++ "Description: " ++ "N/A" ++ "\n"
        ++ "Parameters: " ++ "None" :=
  (C6_formatters_amended ⟨"e1", "GET", "/a", none, none, []⟩ rfl).2.2

/-- A failing entry anywhere in the `selectedEndpoints` comprehension:
well-formed entries before it succeed, so its error is the first one
raised and aborts the whole comprehension. -/
theorem mapME_steps_bad (gs : List SelEntry) (bad : Json) (rest : List Json)
    (err : PyError) (hbad : WorkflowGenerator.mk_step bad = .error err) :
    mapME WorkflowGenerator.mk_step (gs.map SelEntry.toJson ++ bad :: rest) =
      .error err := by
  induction gs with
  | nil =>
      simp only [List.map_nil, List.nil_append, mapME, hbad, except_bind_err]
  | cons g gs ih =>
      simp only [List.map_cons, List.cons_append, mapME, mk_step_ok,
        except_bind_ok, List.append_eq, ih, except_bind_err]

/-- If the steps comprehension raises, `translate` raises the same
exception (the guard has already passed on a non-empty list value). -/
theorem translate_steps_error (wd : Json) (l : List Json) (err : PyError)
    (sid : String)
    (hse : dictGet wd "selectedEndpoints" = Json.arr l)
    (hne : l.isEmpty = false)
    (hmap : mapME WorkflowGenerator.mk_step l = .error err) :
    WorkflowGenerator.translate wd sid = .error err := by
  simp only [WorkflowGenerator.translate, hse, Json.elems, Json.isArr,
    pyTruthy, hne, Bool.not_false, Bool.not_true, Bool.or_self,
    raise_if_false, except_bind_ok, hmap, except_bind_err]

/-- After a successful steps comprehension over well-formed entries,
`translate` reduces to the three top-level indexed reads (in source
order `workflowName`, `workflowDescription`, `explanation`) followed by
the assembled response. -/
theorem translate_after_steps (wd : Json) (e : SelEntry) (es : List SelEntry)
    (sid : String)
    (hse : dictGet wd "selectedEndpoints" = Json.arr ((e :: es).map SelEntry.toJson)) :
    WorkflowGenerator.translate wd sid = (do
      let name ← dictItem wd "workflowName"
      let descr ← dictItem wd "workflowDescription"
      let expl ← dictItem wd "explanation"
      Except.ok (Json.obj [
        ("workflow", Json.obj [
          ("name", name),
          ("description", descr),
          ("steps", Json.arr ((e :: es).map SelEntry.expectedStep)),
          ("specId", .str sid)]),
        ("explanation", expl),
        ("aiReasoning", Json.arr ((e :: es).map SelEntry.expectedReason))])) := by
  simp only [WorkflowGenerator.translate, hse, List.map_cons, Json.elems,
    Json.isArr, pyTruthy, List.isEmpty_cons, Bool.not_false, Bool.not_true,
    Bool.or_self, raise_if_false, except_bind_ok, except_pure,
    mapME_steps_cons, mapME_reasons_cons]

/-- A `KeyError` escaping the translation of the endpoint-selection
operation reaches the handler's generic `except` branch: a server-error
(500) response with the handler prefix and the quoted key, never the
client-input-error (400) class. -/
theorem generate_keyerror_surfaced (env : Env)
    (henv : initClient env = .ok ()) (wd : Json) (d sid k : String)
    (eps : List EndpointDesc)
    (ht : WorkflowGenerator.translate wd sid = .error (.keyError k)) :
    Api.generate_workflow env (.returns (some wd)) d eps sid =
      .serverError ("Failed to generate workflow: " ++ (squote ++ k ++ squote))
    ∧ (Api.generate_workflow env (.returns (some wd)) d eps sid).isClientError
      = false := by
  constructor <;>
    simp only [Api.generate_workflow, WorkflowGenerator.generate_from_nl,
      henv, dispatch, except_bind_ok, ht, handle, PyError.message,
      HttpResult.isClientError]

/-- C10: for the endpoint-selection operation, an entry of the
`selectedEndpoints` list lacking `endpointId`, `order` or `reasoning`
makes the step comprehension raise the corresponding `KeyError`, which
aborts the translation; a top level lacking `workflowName`, or
`workflowDescription`, or `explanation` likewise raises that key's
`KeyError` after the steps are built; in every case the error is a
key-lookup error — not the schema-violation `ValueError` — and the HTTP
boundary surfaces it in the server-error (500) class, never the
client-input-error (400) class; only `parameters` and `dependsOn` are
defaulted when absent. -/
theorem C10_missing_required_keys (efields : List (String × Json))
    (ov ev nv dv : Json) (env : Env) (henv : initClient env = .ok ())
    (gs : List SelEntry) (bad : Json) (rest : List Json)
    (e : SelEntry) (es : List SelEntry)
    (wd : Json) (d sid k : String) (eps : List EndpointDesc) :
    (lookupField efields "order" = none →
       WorkflowGenerator.mk_step (.obj efields) = .error (.keyError "order"))
    ∧ (lookupField efields "order" = some ov →
       lookupField efields "endpointId" = none →
       WorkflowGenerator.mk_step (.obj efields) = .error (.keyError "endpointId"))
    ∧ (lookupField efields "order" = some ov →
       lookupField efields "endpointId" = some ev →
       lookupField efields "reasoning" = none →
       WorkflowGenerator.mk_step (.obj efields) = .error (.keyError "reasoning"))
    ∧ (WorkflowGenerator.mk_step bad = .error (.keyError k) →
       dictGet wd "selectedEndpoints" =
         Json.arr (gs.map SelEntry.toJson ++ bad :: rest) →
       WorkflowGenerator.translate wd sid = .error (.keyError k)
       ∧ Api.generate_workflow env (.returns (some wd)) d eps sid =
           .serverError ("Failed to generate workflow: " ++ (squote ++ k ++ squote))
       ∧ (Api.generate_workflow env (.returns (some wd)) d eps sid).isClientError
         = false)
    ∧ (dictGet wd "selectedEndpoints" = Json.arr ((e :: es).map SelEntry.toJson) →
       (wd.getKey "workflowName" = none →
          WorkflowGenerator.translate wd sid = .error (.keyError "workflowName")
          ∧ Api.generate_workflow env (.returns (some wd)) d eps sid =
              .serverError ("Failed to generate workflow: "
                ++ (squote ++ "workflowName" ++ squote))
          ∧ (Api.generate_workflow env (.returns (some wd)) d eps sid).isClientError
            = false)
       ∧ (wd.getKey "workflowName" = some nv →
          wd.getKey "workflowDescription" = none →
          WorkflowGenerator.translate wd sid = .error (.keyError "workflowDescription")
          ∧ Api.generate_workflow env (.returns (some wd)) d eps sid =
              .serverError ("Failed to generate workflow: "
                ++ (squote ++ "workflowDescription" ++ squote))
          ∧ (Api.generate_workflow env (.returns (some wd)) d eps sid).isClientError
            = false)
       ∧ (wd.getKey "workflowName" = some nv →
          wd.getKey "workflowDescription" = some dv →
          wd.getKey "explanation" = none →
          WorkflowGenerator.translate wd sid = .error (.keyError "explanation")
          ∧ Api.generate_workflow env (.returns (some wd)) d eps sid =
              .serverError ("Failed to generate workflow: "
                ++ (squote ++ "explanation" ++ squote))
          ∧ (Api.generate_workflow env (.returns (some wd)) d eps sid).isClientError
            = false))
    ∧ WorkflowGenerator.mk_step
        (.obj [("endpointId", .str "e9"), ("order", .int 2), ("reasoning", .str "r9")]) =
      .ok (Json.obj [("id", .str "step-2"), ("endpointId", .str "e9"),
        ("order", .int 2), ("reasoning", .str "r9"), ("parameters", .obj []),
        ("conditionalLogic", .null)]) := by
  refine ⟨fun h1 => ?_, fun h1 h2 => ?_, fun h1 h2 h3 => ?_,
    fun hbad hse => ?_, fun hse => ⟨fun h1 => ?_, fun h1 h2 => ?_,
    fun h1 h2 h3 => ?_⟩, mk_step_ok ⟨"e9", 2, "r9", none, none⟩⟩
  · simp only [WorkflowGenerator.mk_step, dictItem, Json.getKey, h1,
      except_bind_err]
  · simp only [WorkflowGenerator.mk_step, dictItem, Json.getKey, h1, h2,
      except_bind_ok, except_bind_err]
  · simp only [WorkflowGenerator.mk_step, dictItem, Json.getKey, h1, h2, h3,
      except_bind_ok, except_bind_err]
  · have hne : (gs.map SelEntry.toJson ++ bad :: rest).isEmpty = false := by
      cases gs <;> rfl
    have ht := translate_steps_error wd _ _ sid hse hne
      (mapME_steps_bad gs bad rest _ hbad)
    exact ⟨ht, generate_keyerror_surfaced env henv wd d sid k eps ht⟩
  · have ht : WorkflowGenerator.translate wd sid = .error (.keyError "workflowName") := by
      rw [translate_after_steps wd e es sid hse]
      simp only [dictItem, h1, except_bind_err]
    exact ⟨ht, generate_keyerror_surfaced env henv wd d sid _ eps ht⟩
  · have ht : WorkflowGenerator.translate wd sid =
        .error (.keyError "workflowDescription") := by
      rw [translate_after_steps wd e es sid hse]
      simp only [dictItem, h1, h2, except_bind_ok, except_bind_err]
    exact ⟨ht, generate_keyerror_surfaced env henv wd d sid _ eps ht⟩
  · have ht : WorkflowGenerator.translate wd sid =
        .error (.keyError "explanation") := by
      rw [translate_after_steps wd e es sid hse]
      simp only [dictItem, h1, h2, h3, except_bind_ok, except_bind_err]
    exact ⟨ht, generate_keyerror_surfaced env henv wd d sid _ eps ht⟩

/-- Witness for C10 at concrete inputs: an entry missing each required
key; a list containing an empty entry lifted to a 500 naming `order`;
and model outputs missing exactly `workflowName`, exactly
`workflowDescription`, and exactly `explanation`, each lifted to a 500
naming that key. -/
theorem C10_missing_required_keys_witness :
    WorkflowGenerator.mk_step (.obj []) = .error (.keyError "order")
    ∧ WorkflowGenerator.mk_step (.obj [("order", .int 0)]) =
      .error (.keyError "endpointId")
    ∧ WorkflowGenerator.mk_step
        (.obj [("order", .int 0), ("endpointId", .str "e1")]) =
      .error (.keyError "reasoning")
    ∧ Api.generate_workflow ⟨some "k"⟩
        (.returns (some (Json.obj [("selectedEndpoints", Json.arr [Json.obj []])])))
        "" [] "s" =
      .serverError ("Failed to generate workflow: " ++ (squote ++ "order" ++ squote))
    ∧ Api.generate_workflow ⟨some "k"⟩
        (.returns (some (Json.obj [("selectedEndpoints",
          Json.arr [SelEntry.toJson ⟨"e1", 0, "r0", none, none⟩])])))
        "" [] "s" =
      .serverError ("Failed to generate workflow: "
        ++ (squote ++ "workflowName" ++ squote))
    ∧ Api.generate_workflow ⟨some "k"⟩
        (.returns (some (Json.obj [("workflowName", .str "W"), ("selectedEndpoints",
          Json.arr [SelEntry.toJson ⟨"e1", 0, "r0", none, none⟩])])))
        "" [] "s" =
      .serverError ("Failed to generate workflow: "
        ++ (squote ++ "workflowDescription" ++ squote))
    ∧ Api.generate_workflow ⟨some "k"⟩
        (.returns (some (Json.obj [("workflowName", .str "W"),
          ("workflowDescription", .str "D"), ("selectedEndpoints",
          Json.arr [SelEntry.toJson ⟨"e1", 0, "r0", none, none⟩])])))
        "" [] "s" =
      .serverError ("Failed to generate workflow: "
        ++ (squote ++ "explanation" ++ squote)) := by
  refine ⟨?_, ?_, ?_, ?_, ?_, ?_, ?_⟩
  · exact (C10_missing_required_keys [] Json.null Json.null Json.null Json.null
      ⟨some "k"⟩ rfl [] (Json.obj []) [] ⟨"e1", 0, "r0", none, none⟩ []
      Json.null "" "s" "order" []).1 rfl
  · exact (C10_missing_required_keys [("order", .int 0)] (.int 0) Json.null
      Json.null Json.null ⟨some "k"⟩ rfl [] (Json.obj []) []
      ⟨"e1", 0, "r0", none, none⟩ [] Json.null "" "s" "order" []).2.1 rfl rfl
  · exact (C10_missing_required_keys [("order", .int 0), ("endpointId", .str "e1")]
      (.int 0) (.str "e1") Json.null Json.null ⟨some "k"⟩ rfl [] (Json.obj []) []
      ⟨"e1", 0, "r0", none, none⟩ [] Json.null "" "s" "order" []).2.2.1
      rfl rfl rfl
  · exact ((C10_missing_required_keys [] Json.null Json.null Json.null Json.null
      ⟨some "k"⟩ rfl [] (Json.obj []) [] ⟨"e1", 0, "r0", none, none⟩ []
      (Json.obj [("selectedEndpoints", Json.arr [Json.obj []])])
      "" "s" "order" []).2.2.2.1 rfl rfl).2.1
  · exact (((C10_missing_required_keys [] Json.null Json.null Json.null Json.null
      ⟨some "k"⟩ rfl [] (Json.obj []) [] ⟨"e1", 0, "r0", none, none⟩ []
      (Json.obj [("selectedEndpoints",
        Json.arr [SelEntry.toJson ⟨"e1", 0, "r0", none, none⟩])])
      "" "s" "order" []).2.2.2.2.1 rfl).1 rfl).2.1
  · exact (((C10_missing_required_keys [] Json.null Json.null (.str "W") Json.null
      ⟨some "k"⟩ rfl [] (Json.obj []) [] ⟨"e1", 0, "r0", none, none⟩ []
      (Json.obj [("workflowName", .str "W"), ("selectedEndpoints",
        Json.arr [SelEntry.toJson ⟨"e1", 0, "r0", none, none⟩])])
      "" "s" "order" []).2.2.2.2.1 rfl).2.1 rfl rfl).2.1
  · exact (((C10_missing_required_keys [] Json.null Json.null (.str "W") (.str "D")
      ⟨some "k"⟩ rfl [] (Json.obj []) [] ⟨"e1", 0, "r0", none, none⟩ []
      (Json.obj [("workflowName", .str "W"), ("workflowDescription", .str "D"),
        ("selectedEndpoints",
        Json.arr [SelEntry.toJson ⟨"e1", 0, "r0", none, none⟩])])
      "" "s" "order" []).2.2.2.2.1 rfl).2.2 rfl rfl rfl).2.1
